import Mathlib

/-!
Verification of the DS1307 start library: a shallow embedding of the
register-level codec (BCD conversion, time and date register encoding and
decoding, RAM address mapping, RAM write) together with theorems settling
the specified properties.

Machine bytes are modelled as natural numbers; a reduction modulo 256 is
inserted exactly where the C code narrows an int expression to a byte.
-/

namespace DS1307

/-- Bus address of the DS1307 slave device (source constant CLOCK_ADDR). -/
def CLOCK_ADDR : Nat := 104

/-- Register address of the seconds register (source constant SEC_ADDR). -/
def SEC_ADDR : Nat := 0x00

/-- Register address of the day-of-week register (source constant DAY_ADDR). -/
def DAY_ADDR : Nat := 0x03

/-- Lower bound of the general-purpose RAM window (source constant RTC_RAM_LOWER). -/
def RTC_RAM_LOWER : Nat := 0x08

/-- Upper bound of the general-purpose RAM window (source constant RTC_RAM_UPPER). -/
def RTC_RAM_UPPER : Nat := 0x3F

/-- Source macro getSafeRamAddr: RTC_RAM_LOWER + (addr % 57). The argument is
an unsigned byte at every call site, so the natural-number model is exact. -/
def getSafeRamAddr (addr : Nat) : Nat := RTC_RAM_LOWER + addr % 57

/-- Source macro clamp: saturates val into the interval between minVal and
maxVal. All call sites pass unsigned values, so Nat is exact. -/
def clamp (val minVal maxVal : Nat) : Nat :=
  if val < minVal then minVal else if val > maxVal then maxVal else val

/-- Source function cvtDec2Bcd: packs the tens digit into the high nibble and
the ones digit into the low nibble; the return type byte narrows mod 256. -/
def cvtDec2Bcd (num : Nat) : Nat :=
  ((num / 10) <<< 4 ||| num % 10) % 256

/-- Source enum amOrPm with values AM = 0, PM = 1, NONE = 2. -/
inductive AmOrPm
  | AM
  | PM
  | NONE
deriving DecidableEq, Repr

/-- Integer value of an amOrPm tag, as C enum-to-int promotion yields it. -/
def AmOrPm.toNat : AmOrPm → Nat
  | .AM => 0
  | .PM => 1
  | .NONE => 2

/-- Source enum Dow with MONDAY = 1 up to SUNDAY = 7. -/
inductive Dow
  | MONDAY
  | TUESDAY
  | WEDNESDAY
  | THURSDAY
  | FRIDAY
  | SATURDAY
  | SUNDAY
deriving DecidableEq, Repr

/-- Integer value of a Dow tag, as C enum-to-int promotion yields it. -/
def Dow.toNat : Dow → Nat
  | .MONDAY => 1
  | .TUESDAY => 2
  | .WEDNESDAY => 3
  | .THURSDAY => 4
  | .FRIDAY => 5
  | .SATURDAY => 6
  | .SUNDAY => 7

/-- Source struct Time: seconds, minutes, hour, oscillator-disable flag,
12-hour-mode flag and meridian indicator. -/
structure Time where
  disableOsc : Bool
  second : Nat
  minut : Nat
  hour : Nat
  is12Hour : Bool
  meridianIndicator : AmOrPm
deriving DecidableEq, Repr

/-- Source struct Date: day of week, day of month, month, two-digit year. -/
structure Date where
  dow : Dow
  date : Nat
  month : Nat
  year : Nat
deriving DecidableEq, Repr

/-- One bus write transaction: the register address written first, followed
by the data bytes queued before endTransmission. -/
structure I2CWrite where
  regAddr : Nat
  data : List Nat
deriving DecidableEq, Repr

/-- Source function configureTime: builds the transaction that writes the
three time registers. Byte 0 carries the clock-halt bit ored with the BCD
seconds, byte 1 the BCD minutes, byte 2 the mode-dependent hour layout. -/
def configureTime (t : Time) : I2CWrite :=
  let ch := (if t.disableOsc then 1 else 0) <<< 7
  let secByte := ch ||| cvtDec2Bcd (clamp t.second 0 59)
  let minByte := cvtDec2Bcd (clamp t.minut 0 59)
  let hourByte :=
    if t.is12Hour then
      ((if t.is12Hour then 1 else 0) <<< 6) |||
        (t.meridianIndicator.toNat <<< 5) ||| cvtDec2Bcd (clamp t.hour 1 12)
    else
      ((if t.is12Hour then 1 else 0) <<< 6) ||| cvtDec2Bcd (clamp t.hour 0 23)
  ⟨SEC_ADDR, [secByte, minByte, hourByte]⟩

/-- Source function configureDate: builds the transaction that writes the
four date registers, each field clamped and BCD encoded. -/
def configureDate (d : Date) : I2CWrite :=
  ⟨DAY_ADDR,
    [cvtDec2Bcd (clamp d.dow.toNat 1 7),
     cvtDec2Bcd (clamp d.date 1 31),
     cvtDec2Bcd (clamp d.month 1 12),
     cvtDec2Bcd (clamp d.year 0 99)]⟩

/-- Day-of-week decoding switch in readDate: the local starts at MONDAY, the
raw byte is masked with 0x07, values 1 to 7 select the matching tag and
anything else (only 0 is possible) leaves the MONDAY fallback. -/
def decodeDow (val : Nat) : Dow :=
  match val &&& 0x07 with
  | 1 => .MONDAY
  | 2 => .TUESDAY
  | 3 => .WEDNESDAY
  | 4 => .THURSDAY
  | 5 => .FRIDAY
  | 6 => .SATURDAY
  | 7 => .SUNDAY
  | _ => .MONDAY

/-- Body of the switch in the readDate receive loop at index i. -/
def readDateStep (i val : Nat) (dateOut : Date) : Date :=
  if i = 0 then { dateOut with dow := decodeDow val }
  else if i = 1 then
    { dateOut with date := ((val >>> 4) &&& 0x03) * 10 + (val &&& 0x0F) }
  else if i = 2 then
    { dateOut with month := ((val >>> 4) &&& 0x01) * 10 + (val &&& 0x0F) }
  else if i = 3 then
    { dateOut with year := ((val >>> 4) &&& 0x0F) * 10 + (val &&& 0x0F) }
  else dateOut

/-- The readDate receive loop: consumes the available bytes in order,
incrementing the index counter i after each byte. -/
def readDateLoop : Nat → List Nat → Date → Date
  | _, [], dateOut => dateOut
  | i, val :: rest, dateOut => readDateLoop (i + 1) rest (readDateStep i val dateOut)

/-- Source function readDate. res is the status returned by the addressing
endTransmission; avail the bytes the transport makes available after
requestFrom. On nonzero status the function returns at once: the output
struct is untouched and no request is issued (second component false). -/
def readDate (res : Nat) (avail : List Nat) (dateOut : Date) : Date × Bool :=
  if res = 0 then (readDateLoop 0 avail dateOut, true) else (dateOut, false)

/-- Body of the readTime receive loop at index i: indices 0 and 1 decode
seconds (with the clock-halt bit) and minutes with a 3-bit tens mask; index
2 decodes the hour register with the mode-dependent layout. -/
def readTimeStep (i val : Nat) (timeOut : Time) : Time :=
  if i < 2 then
    let tens := (val >>> 4) &&& 0x07
    let units := val &&& 0x0F
    let res := tens * 10 + units
    if i = 0 then
      { timeOut with disableOsc := ((val >>> 4) &&& 0x08) != 0, second := res }
    else
      { timeOut with minut := res }
  else if i = 2 then
    let is12Hour := (val &&& (1 <<< 6)) != 0
    if is12Hour then
      { timeOut with
          is12Hour := is12Hour
          meridianIndicator := if (val &&& (1 <<< 5)) != 0 then AmOrPm.PM else AmOrPm.AM
          hour := ((val >>> 4) &&& 0x01) * 10 + (val &&& 0x0F) }
    else
      { timeOut with
          is12Hour := is12Hour
          meridianIndicator := AmOrPm.NONE
          hour := ((val >>> 4) &&& 0x03) * 10 + (val &&& 0x0F) }
  else timeOut

/-- The readTime receive loop: consumes the available bytes in order,
incrementing the index counter i after each byte. -/
def readTimeLoop : Nat → List Nat → Time → Time
  | _, [], timeOut => timeOut
  | i, val :: rest, timeOut => readTimeLoop (i + 1) rest (readTimeStep i val timeOut)

/-- Source function readTime. res is the status returned by the addressing
endTransmission; avail the bytes the transport makes available after
requestFrom. On nonzero status the function returns at once: the output
struct is untouched and no request is issued (second component false). -/
def readTime (res : Nat) (avail : List Nat) (timeOut : Time) : Time × Bool :=
  if res = 0 then (readTimeLoop 0 avail timeOut, true) else (timeOut, false)

/-- Source function saveInRTCRAM: maps the requested offset through
getSafeRamAddr, queues the mapped address and the data byte, and returns
true exactly on endTransmission status 0 (endStatus models that status). -/
def saveInRTCRAM (initAddr dataByte endStatus : Nat) : I2CWrite × Bool :=
  let addr := getSafeRamAddr initAddr
  (⟨addr, [dataByte]⟩, if endStatus = 0 then true else false)

/-- Validity of a Time value per the data model: seconds and minutes within
0 to 59, and the mode invariant on hour and meridian. -/
def TimeValid (t : Time) : Prop :=
  t.second ≤ 59 ∧ t.minut ≤ 59 ∧
    (if t.is12Hour then
        1 ≤ t.hour ∧ t.hour ≤ 12 ∧ t.meridianIndicator ≠ AmOrPm.NONE
      else t.hour ≤ 23 ∧ t.meridianIndicator = AmOrPm.NONE)

/-- Validity of a Date value per the data model: day of month 1 to 31,
month 1 to 12, year 0 to 99 (the Dow tag is valid by construction). -/
def DateValid (d : Date) : Prop :=
  1 ≤ d.date ∧ d.date ≤ 31 ∧ 1 ≤ d.month ∧ d.month ≤ 12 ∧ d.year ≤ 99

/-- C1: the source maps offset 56 to address 0x40, one past RTC_RAM_UPPER,
so the mapped address is NOT always inside the window 0x08 to 0x3F. The
claim states the intended safety property; the modulus 57 in the code is an
off-by-one slip (the 56-byte window needs a modulus of 56). -/
theorem ram_addr_out_of_window :
    getSafeRamAddr 56 = 0x40 ∧ RTC_RAM_UPPER < getSafeRamAddr 56 := by
  decide

/-- C2: the source computes RTC_RAM_LOWER + (requested % 57), not % 56: at
offset 5 both agree, but offset 56 maps to RTC_RAM_LOWER + 56 rather than
RTC_RAM_LOWER, and offset 200 maps to RTC_RAM_LOWER + 200 % 57 which
differs from RTC_RAM_LOWER + 200 % 56. -/
theorem ram_addr_mod57_divergence :
    getSafeRamAddr 5 = RTC_RAM_LOWER + 5 ∧
    getSafeRamAddr 56 = RTC_RAM_LOWER + 56 ∧
    getSafeRamAddr 56 ≠ RTC_RAM_LOWER + 56 % 56 ∧
    getSafeRamAddr 200 = RTC_RAM_LOWER + 200 % 57 ∧
    getSafeRamAddr 200 ≠ RTC_RAM_LOWER + 200 % 56 := by
  decide

/-- C3 counterexample: encoding hour 11, meridian PM, 12-hour mode produces
the hour byte 0b01110001 (0x71), not 0b01100001 (0x61) as claimed: the tens
digit of 11 sets bit 4, which the claimed byte leaves clear. -/
theorem hour_byte_12h_counterexample :
    (configureTime ⟨false, 0, 0, 11, true, AmOrPm.PM⟩).data.getD 2 0 ≠ 0b01100001 ∧
    (configureTime ⟨false, 0, 0, 11, true, AmOrPm.PM⟩).data.getD 2 0 = 0x71 := by
  decide

/-- C3 amended: encoding hour 11, meridian PM, 12-hour mode produces the
hour byte 0b01110001 (bit 6 set, bit 5 set, tens bit 4 set, ones 1), and
encoding hour 23 in 24-hour mode produces 0b00100011. -/
theorem hour_byte_encoding_amended :
    (configureTime ⟨false, 0, 0, 11, true, AmOrPm.PM⟩).data.getD 2 0 = 0b01110001 ∧
    (configureTime ⟨false, 0, 0, 23, false, AmOrPm.NONE⟩).data.getD 2 0 = 0b00100011 := by
  decide

/-- C6: encoding the Time value second 58, minute 37, hour 20, oscillator
disabled, 24-hour mode yields exactly the register bytes 0xD8, 0x37, 0x20,
and decoding those three bytes into any prior output struct reproduces the
value exactly. -/
theorem time_scenario_e2e :
    configureTime ⟨true, 58, 37, 20, false, AmOrPm.NONE⟩ =
        ⟨SEC_ADDR, [0xD8, 0x37, 0x20]⟩ ∧
    ∀ t0 : Time, (readTime 0 [0xD8, 0x37, 0x20] t0).1 =
        ⟨true, 58, 37, 20, false, AmOrPm.NONE⟩ := by
  exact ⟨rfl, fun t0 => rfl⟩

/-- C7: for every value up to 99 the BCD encoder returns the tens digit
shifted into the high nibble ored with the ones digit, and in particular
maps 0 to 0x00, 59 to 0x59 and 99 to 0x99. -/
theorem cvtDec2Bcd_spec (n : Nat) (h : n ≤ 99) :
    cvtDec2Bcd n = ((n / 10) <<< 4) ||| (n % 10) ∧
    cvtDec2Bcd 0 = 0x00 ∧ cvtDec2Bcd 59 = 0x59 ∧ cvtDec2Bcd 99 = 0x99 := by
  refine ⟨?_, by decide, by decide, by decide⟩
  interval_cases n <;> decide

/-- C7 witness at value 59. -/
theorem cvtDec2Bcd_spec_witness :
    cvtDec2Bcd 59 = ((59 / 10) <<< 4) ||| (59 % 10) ∧
    cvtDec2Bcd 0 = 0x00 ∧ cvtDec2Bcd 59 = 0x59 ∧ cvtDec2Bcd 99 = 0x99 :=
  cvtDec2Bcd_spec 59 (by decide)

/-- C8: whenever the masked day-of-week byte is outside 1 to 7 (only 0 is
possible after the 0x07 mask) the decoder yields the MONDAY fallback, the
first loop step stores that fallback, and every decoded day-of-week tag has
an ordinal between 1 and 7. -/
theorem dow_fallback_thm (val w : Nat) (d0 : Date) (h : val &&& 0x07 = 0) :
    decodeDow val = Dow.MONDAY ∧
    (readDateStep 0 val d0).dow = Dow.MONDAY ∧
    1 ≤ (decodeDow w).toNat ∧ (decodeDow w).toNat ≤ 7 := by
  refine ⟨?_, ?_, ?_, ?_⟩
  · unfold decodeDow
    rw [h]
  · unfold readDateStep decodeDow
    rw [h]
    simp
  · cases hD : decodeDow w <;> simp [Dow.toNat]
  · cases hD : decodeDow w <;> simp [Dow.toNat]

/-- C8 witness: the raw byte 0x00 masks to 0 and decodes to the MONDAY
fallback; the sample byte 5 decodes to an ordinal between 1 and 7. -/
theorem dow_fallback_witness :
    decodeDow 0 = Dow.MONDAY ∧
    (readDateStep 0 0 ⟨Dow.FRIDAY, 5, 6, 7⟩).dow = Dow.MONDAY ∧
    1 ≤ (decodeDow 5).toNat ∧ (decodeDow 5).toNat ≤ 7 :=
  dow_fallback_thm 0 5 ⟨Dow.FRIDAY, 5, 6, 7⟩ (by decide)

/-- C9: the RAM write returns a boolean equal to the test of the transport
status against 0: true exactly on status 0, false exactly on any nonzero
status; there is no other failure channel. -/
theorem saveInRTCRAM_result (initAddr dataByte endStatus : Nat) :
    (saveInRTCRAM initAddr dataByte endStatus).2 = (endStatus == 0) := by
  by_cases h : endStatus = 0 <;> simp [saveInRTCRAM, h]

/-- C10: when the addressing transaction reports a nonzero status, readTime
and readDate return the output struct untouched and issue no data request
(the request flag in the model is false). -/
theorem read_error_leaves_output (res : Nat) (h : res ≠ 0)
    (avail availD : List Nat) (t0 : Time) (d0 : Date) :
    readTime res avail t0 = (t0, false) ∧ readDate res availD d0 = (d0, false) := by
  simp [readTime, readDate, h]

/-- The seconds or minutes register byte with clock-halt bit clear does not
set the masked halt bit. -/
theorem secByte_bit (s : Nat) (hs : s ≤ 59) :
    (cvtDec2Bcd (clamp s 0 59) >>> 4) &&& 8 = 0 := by
  interval_cases s <;> decide

/-- The 3-bit tens mask and low nibble recover a value up to 59 from its
BCD byte. -/
theorem secByte_val (s : Nat) (hs : s ≤ 59) :
    ((cvtDec2Bcd (clamp s 0 59) >>> 4) &&& 7) * 10 + (cvtDec2Bcd (clamp s 0 59) &&& 15) = s := by
  interval_cases s <;> decide

/-- With the clock-halt bit set, the masked halt bit reads back as 8. -/
theorem secByteHi_bit (s : Nat) (hs : s ≤ 59) :
    ((128 ||| cvtDec2Bcd (clamp s 0 59)) >>> 4) &&& 8 = 8 := by
  interval_cases s <;> decide

/-- With the clock-halt bit set, the 3-bit tens mask and low nibble still
recover the seconds value. -/
theorem secByteHi_val (s : Nat) (hs : s ≤ 59) :
    (((128 ||| cvtDec2Bcd (clamp s 0 59)) >>> 4) &&& 7) * 10 +
      ((128 ||| cvtDec2Bcd (clamp s 0 59)) &&& 15) = s := by
  interval_cases s <;> decide

/-- A 24-hour-mode hour byte leaves the mode bit 6 clear. -/
theorem hour24_bit (h : Nat) (hh : h ≤ 23) :
    cvtDec2Bcd (clamp h 0 23) &&& 64 = 0 := by
  interval_cases h <;> decide

/-- The 2-bit tens mask and low nibble recover a 24-hour-mode hour. -/
theorem hour24_val (h : Nat) (hh : h ≤ 23) :
    ((cvtDec2Bcd (clamp h 0 23) >>> 4) &&& 3) * 10 + (cvtDec2Bcd (clamp h 0 23) &&& 15) = h := by
  interval_cases h <;> decide

/-- A 12-hour-mode AM hour byte has the mode bit 6 set. -/
theorem hour12AM_bit6 (h : Nat) (h1 : 1 ≤ h) (h2 : h ≤ 12) :
    (64 ||| cvtDec2Bcd (clamp h 1 12)) &&& 64 = 64 := by
  interval_cases h <;> decide

/-- A 12-hour-mode AM hour byte has the meridian bit 5 clear. -/
theorem hour12AM_bit5 (h : Nat) (h1 : 1 ≤ h) (h2 : h ≤ 12) :
    (64 ||| cvtDec2Bcd (clamp h 1 12)) &&& 32 = 0 := by
  interval_cases h <;> decide

/-- The 1-bit tens mask and low nibble recover a 12-hour-mode AM hour. -/
theorem hour12AM_val (h : Nat) (h1 : 1 ≤ h) (h2 : h ≤ 12) :
    (((64 ||| cvtDec2Bcd (clamp h 1 12)) >>> 4) % 2) * 10 +
      ((64 ||| cvtDec2Bcd (clamp h 1 12)) &&& 15) = h := by
  interval_cases h <;> decide

/-- A 12-hour-mode PM hour byte has the mode bit 6 set. -/
theorem hour12PM_bit6 (h : Nat) (h1 : 1 ≤ h) (h2 : h ≤ 12) :
    (96 ||| cvtDec2Bcd (clamp h 1 12)) &&& 64 = 64 := by
  interval_cases h <;> decide

/-- A 12-hour-mode PM hour byte has the meridian bit 5 set. -/
theorem hour12PM_bit5 (h : Nat) (h1 : 1 ≤ h) (h2 : h ≤ 12) :
    (96 ||| cvtDec2Bcd (clamp h 1 12)) &&& 32 = 32 := by
  interval_cases h <;> decide

/-- The 1-bit tens mask and low nibble recover a 12-hour-mode PM hour. -/
theorem hour12PM_val (h : Nat) (h1 : 1 ≤ h) (h2 : h ≤ 12) :
    (((96 ||| cvtDec2Bcd (clamp h 1 12)) >>> 4) % 2) * 10 +
      ((96 ||| cvtDec2Bcd (clamp h 1 12)) &&& 15) = h := by
  interval_cases h <;> decide

/-- C4: decoding the three register bytes produced by the time encoder from
any valid Time value, into any prior output struct, reproduces the original
value exactly: oscillator flag, seconds, minutes, mode flag, hour, and in
12-hour mode the meridian. -/
theorem time_roundtrip_thm (t t0 : Time) (hv : TimeValid t) :
    (readTime 0 (configureTime t).data t0).1 = t := by
  obtain ⟨osc, s, m, hr, mode, mer⟩ := t
  obtain ⟨hs, hm, hmode⟩ := hv
  have hsa : s ≤ 59 := hs
  have hma : m ≤ 59 := hm
  clear hs hm
  cases mode
  · simp at hmode
    obtain ⟨hh, hmer⟩ := hmode
    subst hmer
    cases osc
    · simp [readTime, configureTime, readTimeLoop, readTimeStep,
            secByte_bit s hsa, secByte_val s hsa, secByte_val m hma,
            hour24_bit hr hh, hour24_val hr hh]
    · simp [readTime, configureTime, readTimeLoop, readTimeStep,
            secByteHi_bit s hsa, secByteHi_val s hsa, secByte_val m hma,
            hour24_bit hr hh, hour24_val hr hh]
  · simp at hmode
    obtain ⟨hh1, hh2, hmer⟩ := hmode
    cases mer
    · cases osc
      · simp [readTime, configureTime, readTimeLoop, readTimeStep, AmOrPm.toNat,
              secByte_bit s hsa, secByte_val s hsa, secByte_val m hma,
              hour12AM_bit6 hr hh1 hh2, hour12AM_bit5 hr hh1 hh2, hour12AM_val hr hh1 hh2]
      · simp [readTime, configureTime, readTimeLoop, readTimeStep, AmOrPm.toNat,
              secByteHi_bit s hsa, secByteHi_val s hsa, secByte_val m hma,
              hour12AM_bit6 hr hh1 hh2, hour12AM_bit5 hr hh1 hh2, hour12AM_val hr hh1 hh2]
    · cases osc
      · simp [readTime, configureTime, readTimeLoop, readTimeStep, AmOrPm.toNat,
              secByte_bit s hsa, secByte_val s hsa, secByte_val m hma,
              hour12PM_bit6 hr hh1 hh2, hour12PM_bit5 hr hh1 hh2, hour12PM_val hr hh1 hh2]
      · simp [readTime, configureTime, readTimeLoop, readTimeStep, AmOrPm.toNat,
              secByteHi_bit s hsa, secByteHi_val s hsa, secByte_val m hma,
              hour12PM_bit6 hr hh1 hh2, hour12PM_bit5 hr hh1 hh2, hour12PM_val hr hh1 hh2]
    · exact absurd rfl hmer

/-- C4 witness: a concrete valid 12-hour PM value round-trips through the
codec, including the meridian. -/
theorem time_roundtrip_witness :
    TimeValid ⟨false, 5, 9, 11, true, AmOrPm.PM⟩ ∧
    (readTime 0 (configureTime ⟨false, 5, 9, 11, true, AmOrPm.PM⟩).data
        ⟨true, 0, 0, 0, false, AmOrPm.NONE⟩).1 = ⟨false, 5, 9, 11, true, AmOrPm.PM⟩ := by
  have hv : TimeValid ⟨false, 5, 9, 11, true, AmOrPm.PM⟩ := by
    unfold TimeValid
    refine ⟨by decide, by decide, ?_⟩
    simp
  exact ⟨hv, time_roundtrip_thm _ _ hv⟩

/-- C5: decoding the four register bytes produced by the date encoder from
any valid Date value, into any prior output struct, reproduces the original
value exactly. -/
theorem date_roundtrip_thm (d d0 : Date) (hv : DateValid d) :
    (readDate 0 (configureDate d).data d0).1 = d := by
  obtain ⟨w, dt, mo, yr⟩ := d
  obtain ⟨h1, h2, h3, h4, h5⟩ := hv
  have h1a : 1 ≤ dt := h1
  have h2a : dt ≤ 31 := h2
  have h3a : 1 ≤ mo := h3
  have h4a : mo ≤ 12 := h4
  have h5a : yr ≤ 99 := h5
  simp [readDate, configureDate, readDateLoop, readDateStep]
  refine ⟨?_, ?_, ?_, ?_⟩
  · cases w <;> decide
  · interval_cases dt <;> decide
  · interval_cases mo <;> decide
  · interval_cases yr <;> decide

/-- C5 witness: a concrete valid date round-trips through the codec. -/
theorem date_roundtrip_witness :
    DateValid ⟨Dow.WEDNESDAY, 29, 10, 97⟩ ∧
    (readDate 0 (configureDate ⟨Dow.WEDNESDAY, 29, 10, 97⟩).data
        ⟨Dow.MONDAY, 1, 1, 0⟩).1 = ⟨Dow.WEDNESDAY, 29, 10, 97⟩ := by
  have hv : DateValid ⟨Dow.WEDNESDAY, 29, 10, 97⟩ := by
    unfold DateValid
    decide
  exact ⟨hv, date_roundtrip_thm _ _ hv⟩

/-- C10 witness at status 2 with pending bytes and concrete structs. -/
theorem read_error_leaves_output_witness :
    readTime 2 [0xD8] ⟨false, 1, 2, 3, false, AmOrPm.NONE⟩ =
        (⟨false, 1, 2, 3, false, AmOrPm.NONE⟩, false) ∧
    readDate 2 [1, 2, 3, 4] ⟨Dow.FRIDAY, 5, 6, 7⟩ = (⟨Dow.FRIDAY, 5, 6, 7⟩, false) :=
  read_error_leaves_output 2 (by decide) [0xD8] [1, 2, 3, 4] _ _

end DS1307
